import Mathlib

/-!
Verification of the retry/submission core of `tax_integration_app.py`
(`TaxAuthorityClient.submit_invoice`).

The Python loop is embedded shallowly:
* one network attempt (`requests.post`) is abstracted as a `TransportResult`:
  either an HTTP response carrying an integer status code and an optional
  parsed JSON body, or a caught `requests.exceptions.RequestException`
  carrying its stringified description;
* `random.uniform(0.5, 1.5)` is abstracted as a `jitter : Int → ℚ` function
  giving the multiplier drawn before the sleep that follows attempt `k`;
* `time.sleep` is modelled by recording each sleep duration in a trace list.

The loop `for attempt in range(1, max_retries + 1)` is embedded as structural
recursion over the explicit list `intRange 1 max_retries`, which is exactly
the list of values Python's `range(1, max_retries + 1)` iterates over.
-/

namespace TaxApp

/-- Outcome of one `requests.post` call inside the `try` block: either a
response object (status code plus parsed body, `none` when the content is
empty) or a caught `RequestException` with its stringified description. -/
inductive TransportResult where
  | response (status_code : Int) (body : Option String)
  | transportError (err : String)
deriving Repr, DecidableEq

/-- The `"response"` field of a logged attempt dict: the parsed JSON body
(`None` for an empty body) in the response branch, `str(e)` in the
exception branch. -/
inductive RespValue where
  | json (body : Option String)
  | errText (e : String)
deriving Repr, DecidableEq

/-- One entry of `attempts_log`: the dict with keys `attempt`,
`status_code` and `response` appended by the loop body. -/
structure AttemptRecord where
  attempt : Int
  status_code : Option Int
  response : RespValue
deriving Repr, DecidableEq

/-- The value returned by `submit_invoice` — the status/log pair — together
with the trace of sleep durations passed to `time.sleep`. -/
structure RetryResult where
  status : String
  log : List AttemptRecord
  sleeps : List ℚ
deriving Repr, DecidableEq

/-- The Python list `list(range(lo, hi + 1)) = [lo, lo + 1, ..., hi]`. -/
def intRange (lo hi : Int) : List Int :=
  (List.range (hi + 1 - lo).toNat).map (fun (i : Nat) => lo + (i : Int))

/-- The body of `for attempt in range(1, max_retries + 1)` in
`TaxAuthorityClient.submit_invoice`, recursing over the remaining attempt
numbers.  Each step mirrors the source: try the POST; on a response append a
record with the status code and body and return early on 200 or 4xx; on a
`RequestException` append a record with `None` status code and the
stringified error; then sleep `backoff_base ** attempt * uniform(0.5, 1.5)`
when `attempt < max_retries`; falling out of the loop returns
`("FAILED", attempts_log)`. -/
def submitLoop (transport : Int → TransportResult) (jitter : Int → ℚ)
    (backoff_base : ℚ) (max_retries : Int) :
    List Int → List AttemptRecord → List ℚ → RetryResult
  | [], attempts_log, sleeps => ⟨"FAILED", attempts_log, sleeps⟩
  | attempt :: rest, attempts_log, sleeps =>
    match transport attempt with
    | .response status_code body =>
      let log' := attempts_log ++ [⟨attempt, some status_code, .json body⟩]
      if status_code = 200 then ⟨"SUBMITTED", log', sleeps⟩
      else if 400 ≤ status_code ∧ status_code < 500 then ⟨"FAILED", log', sleeps⟩
      else
        submitLoop transport jitter backoff_base max_retries rest log'
          (if attempt < max_retries
            then sleeps ++ [backoff_base ^ attempt * jitter attempt] else sleeps)
    | .transportError e =>
      submitLoop transport jitter backoff_base max_retries rest
        (attempts_log ++ [⟨attempt, none, .errText e⟩])
        (if attempt < max_retries
          then sleeps ++ [backoff_base ^ attempt * jitter attempt] else sleeps)

/-- `TaxAuthorityClient.__init__`: stores the four configuration values
verbatim; no validation is performed. -/
structure TaxAuthorityClient where
  base_url : String
  max_retries : Int := 3
  backoff_base : ℚ := 2
  timeout : ℚ := 5
deriving Repr, DecidableEq

/-- `url = f"<base_url>/tax/submit?mode=<mode>"`. -/
def buildUrl (c : TaxAuthorityClient) (mode : String) : String :=
  c.base_url ++ "/tax/submit?mode=" ++ mode

/-- `TaxAuthorityClient.submit_invoice(invoice, mode)`.  `post url invoice k`
abstracts the `requests.post(url, json=invoice, timeout=...)` call made on
attempt `k` (its result already classified as response or caught exception). -/
def submit_invoice {α : Type} (post : String → α → Int → TransportResult)
    (jitter : Int → ℚ) (c : TaxAuthorityClient) (invoice : α) (mode : String) :
    RetryResult :=
  submitLoop (fun attempt => post (buildUrl c mode) invoice attempt) jitter
    c.backoff_base c.max_retries (intRange 1 c.max_retries) [] []

/-- An attempt outcome is terminal when the loop returns at it: an HTTP
response with status 200 or a status in `[400, 500)`. -/
def isTerminal : TransportResult → Bool
  | .response status_code _ => decide (status_code = 200) ||
      (decide (400 ≤ status_code) && decide (status_code < 500))
  | .transportError _ => false

/-- The record `submit_invoice` logs for attempt `k`. -/
def recordOf (transport : Int → TransportResult) (k : Int) : AttemptRecord :=
  match transport k with
  | .response status_code body => ⟨k, some status_code, .json body⟩
  | .transportError e => ⟨k, none, .errText e⟩

/-- Number of attempts the loop actually executes on a given attempt list:
up to and including the first terminal one, or all of them. -/
def runLength (transport : Int → TransportResult) : List Int → Nat
  | [] => 0
  | k :: rest => if isTerminal (transport k) then 1 else runLength transport rest + 1

/-- Final status of a run over a given attempt list. -/
def statusOfRun (transport : Int → TransportResult) : List Int → String
  | [] => "FAILED"
  | k :: rest =>
    match transport k with
    | .response status_code _ =>
      if status_code = 200 then "SUBMITTED"
      else if 400 ≤ status_code ∧ status_code < 500 then "FAILED"
      else statusOfRun transport rest
    | .transportError _ => statusOfRun transport rest

/-! Concrete transports, jitter and clients used to instantiate the theorems
on executable inputs. -/

/-- A transport on which every POST yields status 200 with an empty body. -/
def alwaysOk : String → String → Int → TransportResult :=
  fun _ _ _ => .response 200 none

/-- A transport on which every POST raises a connection error. -/
def alwaysConnError : String → String → Int → TransportResult :=
  fun _ _ _ => .transportError "connection refused"

/-- A transport that times out on attempt 1 and returns 422 on later attempts. -/
def errThen422 : String → String → Int → TransportResult :=
  fun _ _ k => if k = 1 then .transportError "timeout" else .response 422 none

/-- A transport that times out on attempt 1 and returns 200 on later attempts. -/
def errThen200 : String → String → Int → TransportResult :=
  fun _ _ k => if k = 1 then .transportError "timeout" else .response 200 none

/-- A transport on which every POST yields status 503. -/
def always503 : String → String → Int → TransportResult :=
  fun _ _ _ => .response 503 none

/-- A deterministic stand-in for `random.uniform(0.5, 1.5)` always drawing 1. -/
def unitJitter : Int → ℚ := fun _ => 1

/-- A client built like `TaxAuthorityClient(TAX_API_URL)`: all defaults. -/
def demoClient : TaxAuthorityClient := { base_url := "http://tax.example" }

/-- Full functional characterization of the retry loop: the status is
`statusOfRun`, the log is the records of the executed attempts in order, and
the sleeps are one backoff duration per executed non-terminal attempt that is
below `max_retries`. -/
theorem submitLoop_char (transport : Int → TransportResult) (jitter : Int → ℚ)
    (backoff_base : ℚ) (max_retries : Int) :
    ∀ (attempts : List Int) (attempts_log : List AttemptRecord) (sleeps : List ℚ),
    submitLoop transport jitter backoff_base max_retries attempts attempts_log sleeps =
      ⟨statusOfRun transport attempts,
       attempts_log ++
         (attempts.take (runLength transport attempts)).map (recordOf transport),
       sleeps ++
         ((attempts.take (runLength transport attempts)).filter
           (fun k => !isTerminal (transport k) && decide (k < max_retries))).map
           (fun k => backoff_base ^ k * jitter k)⟩ := by
  intro attempts
  induction attempts with
  | nil =>
    intro l s
    simp [submitLoop, statusOfRun, runLength]
  | cons k rest ih =>
    intro l s
    cases h : transport k with
    | response status_code body =>
      by_cases h200 : status_code = 200
      · simp [submitLoop, statusOfRun, runLength, isTerminal, recordOf, h, h200]
      · by_cases h4xx : 400 ≤ status_code ∧ status_code < 500
        · simp [submitLoop, statusOfRun, runLength, isTerminal, recordOf, h, h200, h4xx]
        · have hterm : isTerminal (TransportResult.response status_code body) = false := by
            simp [isTerminal, h200]
            omega
          simp only [submitLoop, h, h200, if_false, h4xx, ite_false]
          rw [ih]
          simp only [statusOfRun, h, h200, if_false, h4xx, ite_false,
            runLength, hterm, Bool.false_eq_true, List.take_succ_cons,
            List.map_cons, List.filter_cons, Bool.not_false, Bool.true_and,
            recordOf]
          by_cases hlt : k < max_retries
          · simp [hlt, hterm, recordOf, h, List.append_assoc]
          · simp [hlt, hterm, recordOf, h, List.append_assoc]
    | transportError e =>
      have hterm : isTerminal (TransportResult.transportError e) = false := by
        simp [isTerminal]
      simp only [submitLoop, h]
      rw [ih]
      simp only [statusOfRun, h, runLength, hterm, Bool.false_eq_true,
        List.take_succ_cons, List.map_cons, List.filter_cons, Bool.not_false,
        Bool.true_and, recordOf]
      by_cases hlt : k < max_retries
      · simp [hlt, hterm, recordOf, h, List.append_assoc]
      · simp [hlt, hterm, recordOf, h, List.append_assoc]

theorem intRange_length (lo hi : Int) :
    (intRange lo hi).length = (hi + 1 - lo).toNat := by
  rw [intRange, List.length_map, List.length_range]

theorem intRange_eq_nil (lo hi : Int) (h : hi < lo) : intRange lo hi = [] := by
  have : (hi + 1 - lo).toNat = 0 := by omega
  simp [intRange, this]

theorem intRange_eq_cons (lo hi : Int) (h : lo ≤ hi) :
    intRange lo hi = lo :: intRange (lo + 1) hi := by
  have h1 : (hi + 1 - lo).toNat = (hi + 1 - (lo + 1)).toNat + 1 := by omega
  have hf : ((fun i : Nat => lo + (i : Int)) ∘ Nat.succ) =
      fun i : Nat => (lo + 1) + (i : Int) := by
    funext i
    simp only [Function.comp_apply, Nat.succ_eq_add_one]
    push_cast
    ring
  rw [intRange, h1, List.range_succ_eq_map, List.map_cons, List.map_map, hf, intRange]
  congr 1
  simp

theorem intRange_append (lo m hi : Int) (h1 : lo ≤ m + 1) (h2 : m ≤ hi) :
    intRange lo hi = intRange lo m ++ intRange (m + 1) hi := by
  have ha : (hi + 1 - lo).toNat = (m + 1 - lo).toNat + (hi + 1 - (m + 1)).toNat := by
    omega
  have hf : ((fun i : Nat => lo + (i : Int)) ∘ (fun x => (m + 1 - lo).toNat + x)) =
      fun i : Nat => (m + 1) + (i : Int) := by
    funext x
    simp only [Function.comp_apply]
    omega
  rw [intRange, ha, List.range_add, List.map_append, List.map_map, hf]
  rfl

theorem runLength_cons_eq (transport : Int → TransportResult)
    (k : Int) (rest : List Int) :
    runLength transport (k :: rest) =
      if isTerminal (transport k) then 1 else runLength transport rest + 1 := rfl

theorem mem_intRange (k lo hi : Int) : k ∈ intRange lo hi ↔ lo ≤ k ∧ k ≤ hi := by
  simp only [intRange, List.mem_map, List.mem_range]
  constructor
  · rintro ⟨i, hi', rfl⟩
    omega
  · rintro ⟨hlk, hkh⟩
    exact ⟨(k - lo).toNat, by omega, by omega⟩

/-- A response whose status code is neither 200 nor in `[400, 500)` is
non-terminal, and conversely. -/
theorem nonterminal_response (c : Int) (b : Option String)
    (h : isTerminal (.response c b) = false) : c ≠ 200 ∧ ¬(400 ≤ c ∧ c < 500) := by
  simp [isTerminal] at h
  omega

theorem runLength_le (transport : Int → TransportResult) (attempts : List Int) :
    runLength transport attempts ≤ attempts.length := by
  induction attempts with
  | nil => simp [runLength]
  | cons k rest ih =>
    simp only [runLength, List.length_cons]
    split <;> omega

theorem runLength_pos (transport : Int → TransportResult) (k : Int) (rest : List Int) :
    1 ≤ runLength transport (k :: rest) := by
  simp only [runLength]
  split <;> omega

theorem runLength_append_nonterminal (transport : Int → TransportResult)
    (pre rest : List Int) (h : ∀ k ∈ pre, isTerminal (transport k) = false) :
    runLength transport (pre ++ rest) = pre.length + runLength transport rest := by
  induction pre with
  | nil => simp
  | cons a l ih =>
    have ha : isTerminal (transport a) = false := h a (by simp)
    have ih' := ih (fun k hk => h k (by simp [hk]))
    rw [List.cons_append, runLength_cons_eq, ha, if_neg (by simp), ih',
      List.length_cons]
    omega

theorem statusOfRun_append_nonterminal (transport : Int → TransportResult)
    (pre rest : List Int) (h : ∀ k ∈ pre, isTerminal (transport k) = false) :
    statusOfRun transport (pre ++ rest) = statusOfRun transport rest := by
  induction pre with
  | nil => simp
  | cons a l ih =>
    have ha : isTerminal (transport a) = false := h a (by simp)
    have ih' := ih (fun k hk => h k (by simp [hk]))
    cases hta : transport a with
    | response c b =>
      rw [hta] at ha
      have hc := nonterminal_response c b ha
      simp [statusOfRun, hta, hc.1, hc.2, ih']
    | transportError e => simp [statusOfRun, hta, ih']

theorem runLength_cons_terminal (transport : Int → TransportResult)
    (k : Int) (rest : List Int) (h : isTerminal (transport k) = true) :
    runLength transport (k :: rest) = 1 := by
  simp [runLength, h]

theorem statusOfRun_cons_200 (transport : Int → TransportResult)
    (k : Int) (rest : List Int) (b : Option String)
    (h : transport k = .response 200 b) :
    statusOfRun transport (k :: rest) = "SUBMITTED" := by
  simp [statusOfRun, h]

theorem statusOfRun_cons_4xx (transport : Int → TransportResult)
    (k c : Int) (rest : List Int) (b : Option String)
    (h : transport k = .response c b) (h4 : 400 ≤ c ∧ c < 500) :
    statusOfRun transport (k :: rest) = "FAILED" := by
  have h200 : ¬(c = 200) := by omega
  simp [statusOfRun, h, h200, h4]

theorem statusOfRun_dichotomy (transport : Int → TransportResult)
    (attempts : List Int) :
    statusOfRun transport attempts = "SUBMITTED" ∨
      statusOfRun transport attempts = "FAILED" := by
  induction attempts with
  | nil => right; rfl
  | cons k rest ih =>
    cases h : transport k with
    | response c b =>
      by_cases h200 : c = 200
      · left
        simp [statusOfRun, h, h200]
      · by_cases h4 : 400 ≤ c ∧ c < 500
        · right
          simp [statusOfRun, h, h200, h4]
        · simpa [statusOfRun, h, h200, h4] using ih
    | transportError e => simpa [statusOfRun, h] using ih

theorem intRange_getElem (lo hi : Int) (i : Nat) (h : i < (hi + 1 - lo).toNat) :
    (intRange lo hi)[i]? = some (lo + (i : Int)) := by
  rw [intRange, List.getElem?_map, List.getElem?_range h]
  rfl

theorem getLast?_map {α β : Type} (f : α → β) (l : List α) :
    (l.map f).getLast? = l.getLast?.map f := by
  induction l with
  | nil => rfl
  | cons a l ih =>
    cases l with
    | nil => rfl
    | cons b t =>
      simpa [List.getLast?_cons_cons] using ih

/-- On a list of all-non-terminal attempts the loop exhausts the list and
fails. -/
theorem runLength_eq_length_nonterminal (transport : Int → TransportResult)
    (attempts : List Int) (h : ∀ k ∈ attempts, isTerminal (transport k) = false) :
    runLength transport attempts = attempts.length := by
  have := runLength_append_nonterminal transport attempts [] h
  simpa [runLength] using this

theorem statusOfRun_eq_failed_nonterminal (transport : Int → TransportResult)
    (attempts : List Int) (h : ∀ k ∈ attempts, isTerminal (transport k) = false) :
    statusOfRun transport attempts = "FAILED" := by
  have := statusOfRun_append_nonterminal transport attempts [] h
  simpa [statusOfRun] using this

/-- A run that ends `SUBMITTED` ends at an executed attempt whose response
had status code 200. -/
theorem statusOfRun_submitted_last (transport : Int → TransportResult) :
    ∀ attempts : List Int, statusOfRun transport attempts = "SUBMITTED" →
      ∃ (k : Int) (b : Option String),
        (attempts.take (runLength transport attempts)).getLast? = some k ∧
          transport k = .response 200 b := by
  intro attempts
  induction attempts with
  | nil =>
    intro h
    simp [statusOfRun] at h
  | cons a rest ih =>
    intro h
    cases ht : transport a with
    | response sc b =>
      by_cases h200 : sc = 200
      · subst h200
        refine ⟨a, b, ?_, ht⟩
        have hterm : isTerminal (transport a) = true := by simp [isTerminal, ht]
        rw [runLength_cons_eq, hterm, if_pos rfl]
        rfl
      · by_cases h4 : 400 ≤ sc ∧ sc < 500
        · exfalso
          rw [statusOfRun, ht] at h
          simp [h200, h4] at h
        · have h' : statusOfRun transport rest = "SUBMITTED" := by
            rw [statusOfRun, ht] at h
            simpa [h200, h4] using h
          obtain ⟨k, b', hk, htk⟩ := ih h'
          have hterm : isTerminal (transport a) = false := by
            simp [isTerminal, ht, h200]
            omega
          refine ⟨k, b', ?_, htk⟩
          rw [runLength_cons_eq, hterm, if_neg (by simp), List.take_succ_cons]
          cases htake : rest.take (runLength transport rest) with
          | nil =>
            rw [htake] at hk
            simp at hk
          | cons y ys =>
            rw [htake] at hk
            rw [List.getLast?_cons_cons]
            exact hk
    | transportError e =>
      have h' : statusOfRun transport rest = "SUBMITTED" := by
        rw [statusOfRun, ht] at h
        exact h
      obtain ⟨k, b', hk, htk⟩ := ih h'
      have hterm : isTerminal (transport a) = false := by simp [isTerminal, ht]
      refine ⟨k, b', ?_, htk⟩
      rw [runLength_cons_eq, hterm, if_neg (by simp), List.take_succ_cons]
      cases htake : rest.take (runLength transport rest) with
      | nil =>
        rw [htake] at hk
        simp at hk
      | cons y ys =>
        rw [htake] at hk
        rw [List.getLast?_cons_cons]
        exact hk

/-- At most `max_retries - lo + 1` ... helper: a filtered integer range keeps
at most `(m - lo).toNat` elements when the filter requires `k < m`. -/
theorem length_filter_lt_le (p : Int → Bool) (m : Int) :
    ∀ (n : Nat) (lo hi : Int), (hi + 1 - lo).toNat = n →
    ((intRange lo hi).filter (fun k => p k && decide (k < m))).length ≤
      (m - lo).toNat := by
  intro n
  induction n with
  | zero =>
    intro lo hi h
    rw [intRange_eq_nil lo hi (by omega)]
    simp
  | succ n ih =>
    intro lo hi h
    rw [intRange_eq_cons lo hi (by omega), List.filter_cons]
    have ihm := ih (lo + 1) hi (by omega)
    by_cases hp : (p lo && decide (lo < m)) = true
    · rw [if_pos hp]
      have hlt : lo < m := by
        have h2 := hp
        simp only [Bool.and_eq_true, decide_eq_true_eq] at h2
        exact h2.2
      simp only [List.length_cons]
      omega
    · rw [if_neg hp]
      omega

/-- If the first POST yields status 200, the call returns immediately:
outcome `SUBMITTED`, one record, no sleep. -/
theorem submit_first_200 {α : Type} (post : String → α → Int → TransportResult)
    (jitter : Int → ℚ) (c : TaxAuthorityClient) (invoice : α) (mode : String)
    (b : Option String) (hmr : 1 ≤ c.max_retries)
    (h1 : post (buildUrl c mode) invoice 1 = .response 200 b) :
    submit_invoice post jitter c invoice mode =
      ⟨"SUBMITTED", [⟨1, some 200, RespValue.json b⟩], []⟩ := by
  simp only [submit_invoice]
  rw [intRange_eq_cons 1 c.max_retries hmr, submitLoop_char]
  have hterm : isTerminal (post (buildUrl c mode) invoice 1) = true := by
    simp [isTerminal, h1]
  have hterm2 : isTerminal (TransportResult.response 200 b) = true := by
    simp [isTerminal]
  simp [statusOfRun, runLength, recordOf, h1, hterm, hterm2]

/-- With a non-positive `max_retries` the loop body never runs: the call
returns `("FAILED", [])` without consulting the transport or sleeping. -/
theorem submit_nonpos {α : Type} (post : String → α → Int → TransportResult)
    (jitter : Int → ℚ) (c : TaxAuthorityClient) (invoice : α) (mode : String)
    (h : c.max_retries ≤ 0) :
    submit_invoice post jitter c invoice mode = ⟨"FAILED", [], []⟩ := by
  simp only [submit_invoice]
  rw [intRange_eq_nil 1 c.max_retries (by omega), submitLoop_char]
  simp [statusOfRun, runLength]

/-- When no attempt in `1..max_retries` is terminal, the loop exhausts all
attempts: outcome `FAILED` with one record per attempt. -/
theorem submit_exhausted {α : Type} (post : String → α → Int → TransportResult)
    (jitter : Int → ℚ) (c : TaxAuthorityClient) (invoice : α) (mode : String)
    (h : ∀ j, 1 ≤ j → j ≤ c.max_retries →
      isTerminal (post (buildUrl c mode) invoice j) = false) :
    (submit_invoice post jitter c invoice mode).status = "FAILED" ∧
      (submit_invoice post jitter c invoice mode).log =
        (intRange 1 c.max_retries).map
          (recordOf (fun k => post (buildUrl c mode) invoice k)) := by
  simp only [submit_invoice]
  rw [submitLoop_char]
  have hall : ∀ k ∈ intRange 1 c.max_retries,
      isTerminal ((fun j => post (buildUrl c mode) invoice j) k) = false := by
    intro k hk
    rw [mem_intRange] at hk
    exact h k hk.1 hk.2
  rw [runLength_eq_length_nonterminal _ _ hall,
    statusOfRun_eq_failed_nonterminal _ _ hall]
  simp

/-- C1: for every submission call with `max_retries ≥ 1`, `submit_invoice`
returns an attempt log whose length lies in `[1, max_retries]` and an
outcome status that is exactly one of `"SUBMITTED"` or `"FAILED"`. -/
theorem C1_length_bounds_and_status {α : Type}
    (post : String → α → Int → TransportResult) (jitter : Int → ℚ)
    (c : TaxAuthorityClient) (invoice : α) (mode : String)
    (hmr : 1 ≤ c.max_retries) :
    (1 ≤ (submit_invoice post jitter c invoice mode).log.length ∧
      ((submit_invoice post jitter c invoice mode).log.length : Int) ≤
        c.max_retries) ∧
    ((submit_invoice post jitter c invoice mode).status = "SUBMITTED" ∨
      (submit_invoice post jitter c invoice mode).status = "FAILED") := by
  simp only [submit_invoice]
  rw [submitLoop_char]
  dsimp only
  refine ⟨⟨?_, ?_⟩, statusOfRun_dichotomy _ _⟩
  · simp only [List.nil_append, List.length_map, List.length_take]
    have hlen := intRange_length 1 c.max_retries
    have hpos : 1 ≤ runLength (fun k => post (buildUrl c mode) invoice k)
        (intRange 1 c.max_retries) := by
      rw [intRange_eq_cons 1 c.max_retries hmr]
      exact runLength_pos _ _ _
    omega
  · simp only [List.nil_append, List.length_map, List.length_take]
    have hlen := intRange_length 1 c.max_retries
    have hle := runLength_le (fun k => post (buildUrl c mode) invoice k)
        (intRange 1 c.max_retries)
    omega

/-- Witness for C1 at a concrete run: default client (3 retries), transport
always answering 200. -/
theorem C1_length_bounds_and_status_witness :
    (1 ≤ demoClient.max_retries) ∧
    ((1 ≤ (submit_invoice alwaysOk unitJitter demoClient "inv" "success").log.length ∧
      ((submit_invoice alwaysOk unitJitter demoClient "inv" "success").log.length : Int) ≤
        demoClient.max_retries) ∧
    ((submit_invoice alwaysOk unitJitter demoClient "inv" "success").status = "SUBMITTED" ∨
      (submit_invoice alwaysOk unitJitter demoClient "inv" "success").status = "FAILED")) :=
  ⟨by decide,
    C1_length_bounds_and_status alwaysOk unitJitter demoClient "inv" "success" (by decide)⟩

/-- C3: if the first attempt's response has status code 200, the call
returns outcome `SUBMITTED` with exactly one record; and 200 is the only
path to `SUBMITTED` — a `SUBMITTED` outcome always ends in a record whose
status code is 200. -/
theorem C3_first_attempt_200 {α : Type}
    (post : String → α → Int → TransportResult) (jitter : Int → ℚ)
    (c : TaxAuthorityClient) (invoice : α) (mode : String) :
    (∀ b, 1 ≤ c.max_retries →
      post (buildUrl c mode) invoice 1 = .response 200 b →
      (submit_invoice post jitter c invoice mode).status = "SUBMITTED" ∧
        (submit_invoice post jitter c invoice mode).log.length = 1) ∧
    ((submit_invoice post jitter c invoice mode).status = "SUBMITTED" →
      ∃ rec, (submit_invoice post jitter c invoice mode).log.getLast? = some rec ∧
        rec.status_code = some 200) := by
  constructor
  · intro b hmr h1
    rw [submit_first_200 post jitter c invoice mode b hmr h1]
    exact ⟨rfl, rfl⟩
  · intro hs
    simp only [submit_invoice] at hs ⊢
    rw [submitLoop_char] at hs ⊢
    dsimp only at hs ⊢
    obtain ⟨k, b, hk, htk⟩ := statusOfRun_submitted_last _ _ hs
    refine ⟨⟨k, some 200, RespValue.json b⟩, ?_, rfl⟩
    rw [List.nil_append, getLast?_map, hk]
    simp [recordOf, htk]

/-- Witness for C3: default client, transport always answering 200. -/
theorem C3_first_attempt_200_witness :
    (1 ≤ demoClient.max_retries) ∧
    (alwaysOk (buildUrl demoClient "success") "inv" 1 =
      TransportResult.response 200 none) ∧
    ((submit_invoice alwaysOk unitJitter demoClient "inv" "success").status = "SUBMITTED" ∧
      (submit_invoice alwaysOk unitJitter demoClient "inv" "success").log.length = 1) ∧
    (∃ rec,
      (submit_invoice alwaysOk unitJitter demoClient "inv" "success").log.getLast? =
        some rec ∧ rec.status_code = some 200) :=
  ⟨by decide, rfl,
    (C3_first_attempt_200 alwaysOk unitJitter demoClient "inv" "success").1 none
      (by decide) rfl,
    (C3_first_attempt_200 alwaysOk unitJitter demoClient "inv" "success").2
      ((C3_first_attempt_200 alwaysOk unitJitter demoClient "inv" "success").1 none
        (by decide) rfl).1⟩

/-- C4: if every one of the `max_retries` attempts is a transport-level
failure or a non-terminal status code (neither 200 nor in `[400, 500)`),
the call returns outcome `FAILED` with exactly `max_retries` records; the
embedding is a total function returning such an outcome, so no exception
propagates. -/
theorem C4_retry_exhaustion {α : Type}
    (post : String → α → Int → TransportResult) (jitter : Int → ℚ)
    (c : TaxAuthorityClient) (invoice : α) (mode : String)
    (hmr : 1 ≤ c.max_retries)
    (h : ∀ j, 1 ≤ j → j ≤ c.max_retries →
      isTerminal (post (buildUrl c mode) invoice j) = false) :
    (submit_invoice post jitter c invoice mode).status = "FAILED" ∧
      ((submit_invoice post jitter c invoice mode).log.length : Int) =
        c.max_retries := by
  obtain ⟨h1, h2⟩ := submit_exhausted post jitter c invoice mode h
  refine ⟨h1, ?_⟩
  rw [h2, List.length_map, intRange_length]
  omega

/-- Witness for C4: default client (3 retries), transport always answering
503. -/
theorem C4_retry_exhaustion_witness :
    (1 ≤ demoClient.max_retries) ∧
    (∀ j : Int, 1 ≤ j → j ≤ demoClient.max_retries →
      isTerminal (always503 (buildUrl demoClient "fail") "inv" j) = false) ∧
    ((submit_invoice always503 unitJitter demoClient "inv" "fail").status = "FAILED" ∧
      ((submit_invoice always503 unitJitter demoClient "inv" "fail").log.length : Int) =
        demoClient.max_retries) :=
  ⟨by decide, fun _ _ _ => rfl,
    C4_retry_exhaustion always503 unitJitter demoClient "inv" "fail" (by decide)
      (fun _ _ _ => rfl)⟩

/-- C9: two calls on the same client with identical input, against
transports that answer 200 on the first attempt, yield two equal outcomes
with exactly one record each — `submit_invoice` holds no per-call mutable
state (each call builds its own `attempts_log`), so the second result equals
the first. -/
theorem C9_repeat_call_independent {α : Type}
    (post1 post2 : String → α → Int → TransportResult)
    (jitter1 jitter2 : Int → ℚ) (c : TaxAuthorityClient) (invoice : α)
    (mode : String) (b : Option String) (hmr : 1 ≤ c.max_retries)
    (h1 : post1 (buildUrl c mode) invoice 1 = .response 200 b)
    (h2 : post2 (buildUrl c mode) invoice 1 = .response 200 b) :
    submit_invoice post1 jitter1 c invoice mode =
      submit_invoice post2 jitter2 c invoice mode ∧
    (submit_invoice post1 jitter1 c invoice mode).log.length = 1 ∧
    (submit_invoice post2 jitter2 c invoice mode).log.length = 1 := by
  rw [submit_first_200 post1 jitter1 c invoice mode b hmr h1,
    submit_first_200 post2 jitter2 c invoice mode b hmr h2]
  exact ⟨rfl, rfl, rfl⟩

/-- Witness for C9: the same always-200 transport on both calls. -/
theorem C9_repeat_call_independent_witness :
    (1 ≤ demoClient.max_retries) ∧
    (alwaysOk (buildUrl demoClient "success") "inv" 1 =
      TransportResult.response 200 none) ∧
    (submit_invoice alwaysOk unitJitter demoClient "inv" "success" =
      submit_invoice alwaysOk unitJitter demoClient "inv" "success" ∧
    (submit_invoice alwaysOk unitJitter demoClient "inv" "success").log.length = 1 ∧
    (submit_invoice alwaysOk unitJitter demoClient "inv" "success").log.length = 1) :=
  ⟨by decide, rfl,
    C9_repeat_call_independent alwaysOk alwaysOk unitJitter unitJitter demoClient
      "inv" "success" none (by decide) rfl rfl⟩

/-- C10: with `max_retries ≤ 0` (the constructor stores the value with no
validation) the loop body never executes: the transport is never consulted —
the result does not depend on `post` at all — and the call returns outcome
`FAILED` with an empty record log, so the length-at-least-1 guarantee indeed
needs the precondition `max_retries ≥ 1`. -/
theorem C10_nonpositive_retry_count {α : Type}
    (post : String → α → Int → TransportResult) (jitter : Int → ℚ)
    (c : TaxAuthorityClient) (invoice : α) (mode : String)
    (h : c.max_retries ≤ 0) :
    submit_invoice post jitter c invoice mode = ⟨"FAILED", [], []⟩ :=
  submit_nonpos post jitter c invoice mode h

/-- Witness for C10: a client constructed with `max_retries = -1`. -/
theorem C10_nonpositive_retry_count_witness :
    (({ base_url := "http://tax.example", max_retries := -1 } :
        TaxAuthorityClient).max_retries ≤ 0) ∧
    submit_invoice alwaysOk unitJitter
      { base_url := "http://tax.example", max_retries := -1 } "inv" "success" =
      ⟨"FAILED", [], []⟩ :=
  ⟨by decide,
    C10_nonpositive_retry_count alwaysOk unitJitter
      { base_url := "http://tax.example", max_retries := -1 } "inv" "success"
      (by decide)⟩

theorem intRange_self (k : Int) : intRange k k = [k] := by
  rw [intRange_eq_cons k k le_rfl, intRange_eq_nil (k + 1) k (by omega)]

theorem intRange_concat (lo hi : Int) (h : lo ≤ hi) :
    intRange lo hi = intRange lo (hi - 1) ++ [hi] := by
  have h2 := intRange_append lo (hi - 1) hi (by omega) (by omega)
  have h3 : hi - 1 + 1 = hi := by omega
  rw [h3] at h2
  rw [h2, intRange_self]

/-- If attempts `1..k-1` are all non-terminal and attempt `k` is terminal,
the loop executes exactly attempts `1..k`: the log is their records, the
status is decided from attempt `k` on, and exactly the `k - 1` sleeps after
attempts `1..k-1` happened (none after the terminating attempt `k`). -/
theorem submit_stops_at {α : Type} (post : String → α → Int → TransportResult)
    (jitter : Int → ℚ) (c : TaxAuthorityClient) (invoice : α) (mode : String)
    (k : Int) (hk1 : 1 ≤ k) (hk2 : k ≤ c.max_retries)
    (hpre : ∀ j, 1 ≤ j → j < k →
      isTerminal (post (buildUrl c mode) invoice j) = false)
    (hterm : isTerminal (post (buildUrl c mode) invoice k) = true) :
    (submit_invoice post jitter c invoice mode).log =
      (intRange 1 k).map (recordOf (fun j => post (buildUrl c mode) invoice j)) ∧
    (submit_invoice post jitter c invoice mode).status =
      statusOfRun (fun j => post (buildUrl c mode) invoice j)
        (intRange k c.max_retries) ∧
    (submit_invoice post jitter c invoice mode).sleeps =
      (intRange 1 (k - 1)).map (fun j => c.backoff_base ^ j * jitter j) := by
  simp only [submit_invoice]
  rw [submitLoop_char]
  dsimp only
  have hsplit : intRange 1 c.max_retries =
      intRange 1 (k - 1) ++ intRange k c.max_retries := by
    have h2 := intRange_append 1 (k - 1) c.max_retries (by omega) (by omega)
    have h3 : k - 1 + 1 = k := by omega
    rw [h3] at h2
    exact h2
  have hcons : intRange k c.max_retries = k :: intRange (k + 1) c.max_retries :=
    intRange_eq_cons k c.max_retries hk2
  have hpre' : ∀ j ∈ intRange 1 (k - 1),
      isTerminal ((fun j => post (buildUrl c mode) invoice j) j) = false := by
    intro j hj
    have hm := (mem_intRange j 1 (k - 1)).1 hj
    exact hpre j hm.1 (by omega)
  have hrun : runLength (fun j => post (buildUrl c mode) invoice j)
      (intRange 1 c.max_retries) = (intRange 1 (k - 1)).length + 1 := by
    rw [hsplit, runLength_append_nonterminal _ _ _ hpre', hcons,
      runLength_cons_terminal _ _ _ (by simpa using hterm)]
  have htake : (intRange 1 c.max_retries).take
      (runLength (fun j => post (buildUrl c mode) invoice j)
        (intRange 1 c.max_retries)) = intRange 1 k := by
    rw [hrun, hsplit, hcons, List.take_append_eq_append_take,
      List.take_of_length_le (by omega), Nat.add_sub_cancel_left,
      List.take_succ_cons, List.take_zero]
    exact (intRange_concat 1 k hk1).symm
  refine ⟨?_, ?_, ?_⟩
  · rw [htake, List.nil_append]
  · rw [hsplit, statusOfRun_append_nonterminal _ _ _ hpre']
  · rw [htake, List.nil_append, intRange_concat 1 k hk1, List.filter_append]
    have hfiltpre : (intRange 1 (k - 1)).filter
        (fun j => !isTerminal ((fun j => post (buildUrl c mode) invoice j) j) &&
          decide (j < c.max_retries)) = intRange 1 (k - 1) := by
      rw [List.filter_eq_self]
      intro j hj
      have hm := (mem_intRange j 1 (k - 1)).1 hj
      simp [hpre' j hj]
      omega
    have hfk : List.filter
        (fun j => !isTerminal ((fun j => post (buildUrl c mode) invoice j) j) &&
          decide (j < c.max_retries)) [k] = [] := by
      simp [hterm]
    rw [hfiltpre, hfk, List.append_nil]

/-- C2: if attempts before `k` do not terminate the loop and attempt `k`
receives an HTTP response with status in `[400, 500)`, the loop terminates
at attempt `k`: the outcome is `FAILED`, the log is exactly the records of
attempts `1..k` (length `k`), and attempt `k`'s record is the last one. -/
theorem C2_client_error_terminates {α : Type}
    (post : String → α → Int → TransportResult) (jitter : Int → ℚ)
    (c : TaxAuthorityClient) (invoice : α) (mode : String) (k sc : Int)
    (b : Option String) (hk1 : 1 ≤ k) (hk2 : k ≤ c.max_retries)
    (hresp : post (buildUrl c mode) invoice k = .response sc b)
    (h4 : 400 ≤ sc ∧ sc < 500)
    (hpre : ∀ j, 1 ≤ j → j < k →
      isTerminal (post (buildUrl c mode) invoice j) = false) :
    (submit_invoice post jitter c invoice mode).status = "FAILED" ∧
      (submit_invoice post jitter c invoice mode).log =
        (intRange 1 k).map (recordOf (fun j => post (buildUrl c mode) invoice j)) ∧
      ((submit_invoice post jitter c invoice mode).log.length : Int) = k ∧
      (submit_invoice post jitter c invoice mode).log.getLast? =
        some ⟨k, some sc, RespValue.json b⟩ := by
  have hterm : isTerminal (post (buildUrl c mode) invoice k) = true := by
    rw [hresp]
    simp [isTerminal]
    omega
  obtain ⟨hlog, hstat, hsl⟩ :=
    submit_stops_at post jitter c invoice mode k hk1 hk2 hpre hterm
  refine ⟨?_, hlog, ?_, ?_⟩
  · rw [hstat, intRange_eq_cons k c.max_retries hk2]
    exact statusOfRun_cons_4xx _ k sc _ b (by simpa using hresp) h4
  · rw [hlog, List.length_map, intRange_length]
    omega
  · rw [hlog, getLast?_map, intRange_concat 1 k hk1, List.getLast?_concat]
    simp [recordOf, hresp]

/-- Witness for C2: transport that times out on attempt 1 and returns 422 on
attempt 2, on the default 3-retry client. -/
theorem C2_client_error_terminates_witness :
    (1 ≤ (2 : Int)) ∧ ((2 : Int) ≤ demoClient.max_retries) ∧
    (errThen422 (buildUrl demoClient "fail") "inv" 2 =
      TransportResult.response 422 none) ∧
    (400 ≤ (422 : Int) ∧ (422 : Int) < 500) ∧
    (∀ j : Int, 1 ≤ j → j < 2 →
      isTerminal (errThen422 (buildUrl demoClient "fail") "inv" j) = false) ∧
    ((submit_invoice errThen422 unitJitter demoClient "inv" "fail").status = "FAILED" ∧
      (submit_invoice errThen422 unitJitter demoClient "inv" "fail").log =
        (intRange 1 2).map
          (recordOf (fun j => errThen422 (buildUrl demoClient "fail") "inv" j)) ∧
      ((submit_invoice errThen422 unitJitter demoClient "inv" "fail").log.length : Int) = 2 ∧
      (submit_invoice errThen422 unitJitter demoClient "inv" "fail").log.getLast? =
        some ⟨2, some 422, RespValue.json none⟩) :=
  ⟨by decide, by decide, rfl, by decide,
    fun j h1 h2 => by
      have hj : j = 1 := by omega
      rw [hj]
      rfl,
    C2_client_error_terminates errThen422 unitJitter demoClient "inv" "fail" 2 422
      none (by decide) (by decide) rfl (by decide)
      (fun j h1 h2 => by
        have hj : j = 1 := by omega
        rw [hj]
        rfl)⟩

/-- C5: a transport-level failure at a reached attempt `k` never propagates —
the embedding returns an ordinary `RetryResult` whose log contains the record
for attempt `k` with absent status code and the stringified error, and the
outcome status is still one of `SUBMITTED`/`FAILED`. -/
theorem C5_transport_error_recorded {α : Type}
    (post : String → α → Int → TransportResult) (jitter : Int → ℚ)
    (c : TaxAuthorityClient) (invoice : α) (mode : String) (k : Int) (e : String)
    (hk1 : 1 ≤ k) (hk2 : k ≤ c.max_retries)
    (hpre : ∀ j, 1 ≤ j → j < k →
      isTerminal (post (buildUrl c mode) invoice j) = false)
    (herr : post (buildUrl c mode) invoice k = .transportError e) :
    (⟨k, none, RespValue.errText e⟩ : AttemptRecord) ∈
        (submit_invoice post jitter c invoice mode).log ∧
      ((submit_invoice post jitter c invoice mode).status = "SUBMITTED" ∨
        (submit_invoice post jitter c invoice mode).status = "FAILED") := by
  simp only [submit_invoice]
  rw [submitLoop_char]
  dsimp only
  constructor
  · have hsplit : intRange 1 c.max_retries =
        intRange 1 k ++ intRange (k + 1) c.max_retries :=
      intRange_append 1 k c.max_retries (by omega) hk2
    have hpre' : ∀ j ∈ intRange 1 k,
        isTerminal ((fun j => post (buildUrl c mode) invoice j) j) = false := by
      intro j hj
      have hm := (mem_intRange j 1 k).1 hj
      by_cases hjk : j = k
      · rw [hjk]
        simp [herr, isTerminal]
      · exact hpre j hm.1 (by omega)
    rw [List.nil_append, hsplit, runLength_append_nonterminal _ _ _ hpre',
      List.take_append_eq_append_take, List.take_of_length_le (by omega),
      List.map_append]
    apply List.mem_append_left
    have hk_mem : k ∈ intRange 1 k := (mem_intRange k 1 k).2 ⟨hk1, le_rfl⟩
    have hrec : recordOf (fun j => post (buildUrl c mode) invoice j) k =
        ⟨k, none, RespValue.errText e⟩ := by
      simp [recordOf, herr]
    rw [← hrec]
    exact List.mem_map_of_mem _ hk_mem
  · exact statusOfRun_dichotomy _ _

/-- Witness for C5: transport that raises a connection error on every
attempt; attempt 1's failure is recorded. -/
theorem C5_transport_error_recorded_witness :
    (1 ≤ (1 : Int)) ∧ ((1 : Int) ≤ demoClient.max_retries) ∧
    (∀ j : Int, 1 ≤ j → j < 1 →
      isTerminal (alwaysConnError (buildUrl demoClient "fail") "inv" j) = false) ∧
    (alwaysConnError (buildUrl demoClient "fail") "inv" 1 =
      TransportResult.transportError "connection refused") ∧
    ((⟨1, none, RespValue.errText "connection refused"⟩ : AttemptRecord) ∈
        (submit_invoice alwaysConnError unitJitter demoClient "inv" "fail").log ∧
      ((submit_invoice alwaysConnError unitJitter demoClient "inv" "fail").status =
          "SUBMITTED" ∨
        (submit_invoice alwaysConnError unitJitter demoClient "inv" "fail").status =
          "FAILED")) :=
  ⟨by decide, by decide, fun j h1 h2 => absurd (by omega : j < j) (lt_irrefl j), rfl,
    C5_transport_error_recorded alwaysConnError unitJitter demoClient "inv" "fail" 1
      "connection refused" (by decide) (by decide)
      (fun j h1 h2 => absurd (by omega : j < j) (lt_irrefl j)) rfl⟩

/-- If attempts `1..k` are all non-terminal and `k < max_retries`, the first
`k` sleeps are exactly the backoff durations after attempts `1..k`. -/
theorem submit_sleeps_prefix {α : Type} (post : String → α → Int → TransportResult)
    (jitter : Int → ℚ) (c : TaxAuthorityClient) (invoice : α) (mode : String)
    (k : Int) (hk1 : 1 ≤ k) (hklt : k < c.max_retries)
    (hpre : ∀ j, 1 ≤ j → j ≤ k →
      isTerminal (post (buildUrl c mode) invoice j) = false) :
    ∃ tail, (submit_invoice post jitter c invoice mode).sleeps =
      (intRange 1 k).map (fun j => c.backoff_base ^ j * jitter j) ++ tail := by
  simp only [submit_invoice]
  rw [submitLoop_char]
  dsimp only
  have hsplit : intRange 1 c.max_retries =
      intRange 1 k ++ intRange (k + 1) c.max_retries :=
    intRange_append 1 k c.max_retries (by omega) (by omega)
  have hpre' : ∀ j ∈ intRange 1 k,
      isTerminal ((fun j => post (buildUrl c mode) invoice j) j) = false := by
    intro j hj
    have hm := (mem_intRange j 1 k).1 hj
    exact hpre j hm.1 hm.2
  rw [List.nil_append, hsplit, runLength_append_nonterminal _ _ _ hpre',
    List.take_append_eq_append_take, List.take_of_length_le (by omega),
    List.filter_append, List.map_append]
  have hfiltpre : (intRange 1 k).filter
      (fun j => !isTerminal ((fun j => post (buildUrl c mode) invoice j) j) &&
        decide (j < c.max_retries)) = intRange 1 k := by
    rw [List.filter_eq_self]
    intro j hj
    have hm := (mem_intRange j 1 k).1 hj
    simp [hpre' j hj]
    omega
  rw [hfiltpre]
  exact ⟨_, rfl⟩

/-- C6: with a positive backoff base and jitter drawn from `[1/2, 3/2)` (the
range of `uniform(0.5, 1.5)`): (i) after any executed non-terminal attempt
`k < max_retries` the `k`-th sleep exists and lies in
`[backoff_base ^ k * 1/2, backoff_base ^ k * 3/2)`; (ii) when the loop
terminates at attempt `t` exactly `t - 1` sleeps happened — none after the
terminating attempt; (iii) every run has at most `max_retries - 1` sleeps —
none after the final allowed attempt. -/
theorem C6_backoff_window {α : Type}
    (post : String → α → Int → TransportResult) (jitter : Int → ℚ)
    (c : TaxAuthorityClient) (invoice : α) (mode : String)
    (hbase : 0 < c.backoff_base)
    (hjit : ∀ j : Int, 1/2 ≤ jitter j ∧ jitter j < 3/2) :
    (∀ k : Int, 1 ≤ k → k < c.max_retries →
      (∀ j, 1 ≤ j → j ≤ k →
        isTerminal (post (buildUrl c mode) invoice j) = false) →
      ∃ s, (submit_invoice post jitter c invoice mode).sleeps[(k - 1).toNat]? =
          some s ∧
        c.backoff_base ^ k * (1/2) ≤ s ∧ s < c.backoff_base ^ k * (3/2)) ∧
    (∀ t : Int, 1 ≤ t → t ≤ c.max_retries →
      isTerminal (post (buildUrl c mode) invoice t) = true →
      (∀ j, 1 ≤ j → j < t →
        isTerminal (post (buildUrl c mode) invoice j) = false) →
      (submit_invoice post jitter c invoice mode).sleeps.length = (t - 1).toNat) ∧
    (submit_invoice post jitter c invoice mode).sleeps.length ≤
      (c.max_retries - 1).toNat := by
  refine ⟨?_, ?_, ?_⟩
  · intro k hk1 hklt hpre
    obtain ⟨tail, hsl⟩ :=
      submit_sleeps_prefix post jitter c invoice mode k hk1 hklt hpre
    refine ⟨c.backoff_base ^ k * jitter k, ?_, ?_, ?_⟩
    · rw [hsl]
      have hlt : (k - 1).toNat <
          ((intRange 1 k).map (fun j => c.backoff_base ^ j * jitter j)).length := by
        rw [List.length_map, intRange_length]
        omega
      rw [List.getElem?_append, if_pos hlt, List.getElem?_map,
        intRange_getElem 1 k _ (by omega)]
      have harg : 1 + (((k - 1).toNat : Nat) : Int) = k := by omega
      rw [harg]
      rfl
    · exact mul_le_mul_of_nonneg_left (hjit k).1 (le_of_lt (zpow_pos hbase k))
    · exact mul_lt_mul_of_pos_left (hjit k).2 (zpow_pos hbase k)
  · intro t ht1 ht2 hterm hpre
    obtain ⟨-, -, hsl⟩ :=
      submit_stops_at post jitter c invoice mode t ht1 ht2 hpre hterm
    rw [hsl, List.length_map, intRange_length]
    omega
  · simp only [submit_invoice]
    rw [submitLoop_char]
    dsimp only
    rw [List.nil_append, List.length_map]
    have hsub : ((intRange 1 c.max_retries).take
        (runLength (fun attempt => post (buildUrl c mode) invoice attempt)
          (intRange 1 c.max_retries))).Sublist (intRange 1 c.max_retries) :=
      List.take_sublist _ _
    have hlen := (hsub.filter
      (fun k => !isTerminal (post (buildUrl c mode) invoice k) &&
        decide (k < c.max_retries))).length_le
    have hbound := length_filter_lt_le
      (fun k => !isTerminal (post (buildUrl c mode) invoice k)) c.max_retries
      ((c.max_retries + 1 - 1).toNat) 1 c.max_retries rfl
    dsimp only at hbound
    omega

/-- Witness for C6: default client (base 2, 3 retries), always-503
transport, jitter constantly 1. -/
theorem C6_backoff_window_witness :
    ((0 : ℚ) < demoClient.backoff_base) ∧
    (∀ j : Int, 1/2 ≤ unitJitter j ∧ unitJitter j < 3/2) ∧
    ((∀ k : Int, 1 ≤ k → k < demoClient.max_retries →
      (∀ j, 1 ≤ j → j ≤ k →
        isTerminal (always503 (buildUrl demoClient "fail") "inv" j) = false) →
      ∃ s, (submit_invoice always503 unitJitter demoClient "inv" "fail").sleeps[(k - 1).toNat]? =
          some s ∧
        demoClient.backoff_base ^ k * (1/2) ≤ s ∧
          s < demoClient.backoff_base ^ k * (3/2)) ∧
    (∀ t : Int, 1 ≤ t → t ≤ demoClient.max_retries →
      isTerminal (always503 (buildUrl demoClient "fail") "inv" t) = true →
      (∀ j, 1 ≤ j → j < t →
        isTerminal (always503 (buildUrl demoClient "fail") "inv" j) = false) →
      (submit_invoice always503 unitJitter demoClient "inv" "fail").sleeps.length =
        (t - 1).toNat) ∧
    (submit_invoice always503 unitJitter demoClient "inv" "fail").sleeps.length ≤
      (demoClient.max_retries - 1).toNat) :=
  ⟨by decide,
    fun j => ⟨(by norm_num : (1 : ℚ)/2 ≤ 1), (by norm_num : (1 : ℚ) < 3/2)⟩,
    C6_backoff_window always503 unitJitter demoClient "inv" "fail" (by decide)
      (fun j => ⟨(by norm_num : (1 : ℚ)/2 ≤ 1), (by norm_num : (1 : ℚ) < 3/2)⟩)⟩

/-- C7: the record at 0-based position `i` of any returned log carries
attempt number `i + 1` (so attempt numbers are 1-based, consecutive and
chronological, with no record omitted or reordered), and it carries a
numeric status code and the parsed body exactly when that attempt received
an HTTP response, an absent status code and the stringified error exactly
when it hit a transport-level failure. -/
theorem C7_log_records_attempts {α : Type}
    (post : String → α → Int → TransportResult) (jitter : Int → ℚ)
    (c : TaxAuthorityClient) (invoice : α) (mode : String) (i : Nat)
    (rec : AttemptRecord)
    (h : (submit_invoice post jitter c invoice mode).log[i]? = some rec) :
    rec.attempt = (i : Int) + 1 ∧
      ((∃ sc b, post (buildUrl c mode) invoice rec.attempt =
            .response sc b ∧
          rec.status_code = some sc ∧ rec.response = RespValue.json b) ∨
        (∃ e, post (buildUrl c mode) invoice rec.attempt = .transportError e ∧
          rec.status_code = none ∧ rec.response = RespValue.errText e)) := by
  simp only [submit_invoice] at h
  rw [submitLoop_char] at h
  dsimp only at h
  rw [List.nil_append, List.getElem?_map, List.getElem?_take] at h
  by_cases hin : i < runLength
      (fun attempt => post (buildUrl c mode) invoice attempt)
      (intRange 1 c.max_retries)
  · rw [if_pos hin] at h
    have hlt : i < (c.max_retries + 1 - 1).toNat := by
      have h1 := runLength_le
        (fun attempt => post (buildUrl c mode) invoice attempt)
        (intRange 1 c.max_retries)
      have h2 := intRange_length 1 c.max_retries
      omega
    rw [intRange_getElem 1 c.max_retries i hlt, Option.map_some'] at h
    have hrec : rec = recordOf
        (fun attempt => post (buildUrl c mode) invoice attempt)
        (1 + (i : Int)) := (Option.some.inj h).symm
    subst hrec
    rcases ht : post (buildUrl c mode) invoice (1 + (i : Int)) with ⟨sc, b⟩ | e
    · have hr : recordOf (fun attempt => post (buildUrl c mode) invoice attempt)
          (1 + (i : Int)) = ⟨1 + (i : Int), some sc, RespValue.json b⟩ := by
        simp [recordOf, ht]
      rw [hr]
      refine ⟨by dsimp only; omega, Or.inl ⟨sc, b, ?_, rfl, rfl⟩⟩
      dsimp only
      exact ht
    · have hr : recordOf (fun attempt => post (buildUrl c mode) invoice attempt)
          (1 + (i : Int)) = ⟨1 + (i : Int), none, RespValue.errText e⟩ := by
        simp [recordOf, ht]
      rw [hr]
      refine ⟨by dsimp only; omega, Or.inr ⟨e, ?_, rfl, rfl⟩⟩
      dsimp only
      exact ht
  · rw [if_neg hin] at h
    simp at h

/-- Witness for C7 at position 0 of the run that times out on attempt 1 and
succeeds on attempt 2. -/
theorem C7_log_records_attempts_witness :
    ((submit_invoice errThen200 unitJitter demoClient "inv" "ok").log[0]? =
      some ⟨1, none, RespValue.errText "timeout"⟩) ∧
    ((⟨1, none, RespValue.errText "timeout"⟩ : AttemptRecord).attempt =
        ((0 : Nat) : Int) + 1 ∧
      ((∃ sc b, errThen200 (buildUrl demoClient "ok") "inv"
            (⟨1, none, RespValue.errText "timeout"⟩ : AttemptRecord).attempt =
            TransportResult.response sc b ∧
          (⟨1, none, RespValue.errText "timeout"⟩ : AttemptRecord).status_code =
            some sc ∧
          (⟨1, none, RespValue.errText "timeout"⟩ : AttemptRecord).response =
            RespValue.json b) ∨
        (∃ e, errThen200 (buildUrl demoClient "ok") "inv"
            (⟨1, none, RespValue.errText "timeout"⟩ : AttemptRecord).attempt =
            TransportResult.transportError e ∧
          (⟨1, none, RespValue.errText "timeout"⟩ : AttemptRecord).status_code =
            none ∧
          (⟨1, none, RespValue.errText "timeout"⟩ : AttemptRecord).response =
            RespValue.errText e))) :=
  ⟨rfl,
    C7_log_records_attempts errThen200 unitJitter demoClient "inv" "ok" 0
      ⟨1, none, RespValue.errText "timeout"⟩ rfl⟩

/-- Counterexample to C8 as stated: configuration errors do NOT fail the
call synchronously before any attempt.  With a malformed base address,
`requests.post` raises `MissingSchema` — a `RequestException` — on every
attempt; the loop catches it, so three attempt records are produced and an
ordinary `FAILED` outcome is returned.  With a non-positive retry count the
call likewise returns the ordinary outcome `("FAILED", [])` rather than a
fault distinct from submission outcomes. -/
theorem C8_counterexample :
    (submit_invoice
        (fun _ _ _ => TransportResult.transportError
          "Invalid URL not-a-url: No scheme supplied")
        unitJitter { base_url := "not-a-url" } "inv" "success").status =
      "FAILED" ∧
    (submit_invoice
        (fun _ _ _ => TransportResult.transportError
          "Invalid URL not-a-url: No scheme supplied")
        unitJitter { base_url := "not-a-url" } "inv" "success").log.length = 3 ∧
    submit_invoice alwaysOk unitJitter
        { base_url := "http://tax.example", max_retries := 0 } "inv" "success" =
      ⟨"FAILED", [], []⟩ :=
  ⟨rfl, rfl, rfl⟩

/-- C8 amended: neither the constructor nor `submit_invoice` validates the
configuration.  A malformed base address does not fail synchronously: every
attempt's `RequestException` is caught and recorded (status code absent) and
the call returns the ordinary outcome `FAILED` after `max_retries` attempts;
a non-positive retry count yields the ordinary outcome `FAILED` with an
empty attempt log.  No fault distinct from a submission outcome exists. -/
theorem C8_no_config_validation {α : Type}
    (post : String → α → Int → TransportResult) (jitter : Int → ℚ)
    (c : TaxAuthorityClient) (invoice : α) (mode : String) (e : String)
    (hmr : 1 ≤ c.max_retries)
    (herr : ∀ j, post (buildUrl c mode) invoice j = .transportError e) :
    ((submit_invoice post jitter c invoice mode).status = "FAILED" ∧
      ((submit_invoice post jitter c invoice mode).log.length : Int) =
        c.max_retries ∧
      ∀ rec ∈ (submit_invoice post jitter c invoice mode).log,
        rec.status_code = none) ∧
    ∀ (c' : TaxAuthorityClient), c'.max_retries ≤ 0 →
      submit_invoice post jitter c' invoice mode = ⟨"FAILED", [], []⟩ := by
  have hnt : ∀ j, 1 ≤ j → j ≤ c.max_retries →
      isTerminal (post (buildUrl c mode) invoice j) = false := by
    intro j h1 h2
    rw [herr j]
    rfl
  obtain ⟨hstat, hlog⟩ := submit_exhausted post jitter c invoice mode hnt
  refine ⟨⟨hstat, ?_, ?_⟩, ?_⟩
  · rw [hlog, List.length_map, intRange_length]
    omega
  · intro rec hrec
    rw [hlog] at hrec
    obtain ⟨j, hj, hrj⟩ := List.mem_map.1 hrec
    rw [← hrj]
    simp [recordOf, herr j]
  · intro c' hc'
    exact submit_nonpos post jitter c' invoice mode hc'

/-- Witness for the amended C8: connection errors on every attempt with the
default client, and a zero-retry client. -/
theorem C8_no_config_validation_witness :
    (1 ≤ demoClient.max_retries) ∧
    (∀ j : Int, alwaysConnError (buildUrl demoClient "fail") "inv" j =
      TransportResult.transportError "connection refused") ∧
    (((submit_invoice alwaysConnError unitJitter demoClient "inv" "fail").status =
        "FAILED" ∧
      ((submit_invoice alwaysConnError unitJitter demoClient "inv" "fail").log.length :
          Int) = demoClient.max_retries ∧
      ∀ rec ∈ (submit_invoice alwaysConnError unitJitter demoClient "inv" "fail").log,
        rec.status_code = none) ∧
    ∀ (c' : TaxAuthorityClient), c'.max_retries ≤ 0 →
      submit_invoice alwaysConnError unitJitter c' "inv" "fail" =
        ⟨"FAILED", [], []⟩) :=
  ⟨by decide, fun _ => rfl,
    C8_no_config_validation alwaysConnError unitJitter demoClient "inv" "fail"
      "connection refused" (by decide) (fun _ => rfl)⟩

end TaxApp
